import Mathlib

/-!
Verification of `create_program_skeleton` / `clCreateProgramWithBinary`
(pocl, `lib/CL/clCreateProgramWithBinary.c`).

The C function is embedded shallowly:

* Devices are identified by natural numbers; a context carries its device list.
* External collaborators that live outside this translation unit
  (`bitcode_is_spirv`, `pocl_binary_check_binary`, `pocl_run_command`,
  `pocl_cache_create_program_cachedir`, `pocl_binary_deserialize`,
  `pocl_exists`, `pocl_read_file`, the sub-device root lookup used by
  `pocl_unique_device_list`, the `cl_khr_spir` extension lookup, and the
  compile-time flags `OCS_AVAILABLE` / `ENABLE_SPIRV`) are modelled as an
  environment of oracle functions, so every theorem quantifies over their
  behaviour.
* Heap allocation is made explicit: every `malloc`/`calloc` draws a fresh
  identifier from a counter and adds it to the set of live allocations;
  `POCL_MEM_FREE` removes it.  This makes "everything is released" checkable.
* The error macros `POCL_GOTO_ERROR_COND` / `POCL_GOTO_ERROR_ON` (defined in
  `pocl_debug.h`, outside the translated file) expand to
  `{ errcode = e; goto ERROR; }`.  This matches the file's own idiom: the
  hand-written failure paths write `errcode = ...; goto ERROR;`
  (lines 100-101) and the one branch that wants the full cleanup writes an
  explicit `goto ERROR_CLEAN_PROGRAM_AND_BINARIES;` (lines 225-226) instead
  of using the macro.
* `assert (errcode == 0)` after `pocl_run_command` is modelled as a distinct
  terminal outcome `assertFail`: the call neither returns a program nor an
  error code there.
* An explicit event trace records the order of the per-device side effects
  (copies, hashing, cache-directory creation, deserialization, cached-IR
  load).
-/

namespace PoclBinary

/-! ## OpenCL status codes (values from the standard CL headers) -/

def CL_SUCCESS : Int := 0
def CL_BUILD_PROGRAM_FAILURE : Int := -11
def CL_OUT_OF_HOST_MEMORY : Int := -6
def CL_INVALID_VALUE : Int := -30
def CL_INVALID_DEVICE : Int := -33
def CL_INVALID_CONTEXT : Int := -34
def CL_INVALID_BINARY : Int := -42
def CL_BUILD_NONE : Int := -1
def CL_PROGRAM_BINARY_TYPE_NONE : Int := 0

/-! ## Basic data -/

/-- A binary blob: the byte sequence handed in by the caller. -/
def Blob := List Nat
deriving instance DecidableEq, Inhabited for Blob

/-- Explicit allocation state: a fresh-id counter and the list of live
(allocated, not yet freed) allocation identifiers. -/
structure Heap where
  next : Nat
  live : List Nat
deriving DecidableEq

def Heap.empty : Heap := ⟨0, []⟩

/-- `malloc`/`calloc`: returns the new allocation id and the new heap.
Allocation success is assumed (the out-of-memory paths of the C code are
not exercised by any claim). -/
def Heap.alloc (h : Heap) : Nat × Heap :=
  (h.next, ⟨h.next + 1, h.live ++ [h.next]⟩)

/-- `POCL_MEM_FREE` of a known allocation id. -/
def Heap.free (h : Heap) (a : Nat) : Heap := ⟨h.next, h.live.erase a⟩

/-- Side effects of the per-device loop, in execution order. -/
inductive Event where
  | copyBinary (i : Nat)       -- memcpy into program->binaries[i] (LLVM IR path)
  | writeSpirvTemp (i : Nat)   -- pocl_cache_write_spirv + pocl_cache_tempname
  | runConverter (i : Nat)     -- pocl_run_command (llvm-spirv)
  | readConverted (i : Nat)    -- pocl_read_file of the converted output
  | removeTemp (i : Nat)       -- pocl_remove of the temporary output
  | copyPoclBinary (i : Nat)   -- memcpy into program->pocl_binaries[i]
  | setBuildHash (i : Nat)     -- pocl_binary_set_program_buildhash
  | createCachedir (i : Nat)   -- pocl_cache_create_program_cachedir
  | deserializePocl (i : Nat)  -- pocl_binary_deserialize
  | loadCachedBC (i : Nat)     -- pocl_read_file(program_bc_path)
deriving DecidableEq

/-- The external collaborators of `create_program_skeleton`, as oracles.
Each field corresponds to one function or compile-time flag that is not part
of the translated file. -/
structure Env where
  /-- compile-time flag `OCS_AVAILABLE`. -/
  ocsAvailable : Bool
  /-- compile-time flag `ENABLE_SPIRV`. -/
  enableSpirv : Bool
  /-- root device of a (sub-)device, used by `pocl_unique_device_list`. -/
  root : Nat → Nat
  /-- whether `strstr (dev->extensions, "cl_khr_spir")` is non-null. -/
  hasSpirExt : Nat → Bool
  /-- `bitcode_is_spirv (blob, len, &is_spirv_opencl)` return value. -/
  is_spirv : Blob → Nat → Bool
  /-- the `is_spirv_opencl` out-parameter of `bitcode_is_spirv`. -/
  spirv_is_opencl : Blob → Bool
  /-- exit code of `pocl_run_command` (llvm-spirv) on the given input. -/
  run_exit : Blob → Int
  /-- contents read back from the converter's output file. -/
  converted : Blob → Blob
  /-- `pocl_binary_check_binary (device, blob)`. -/
  check_binary : Nat → Blob → Bool
  /-- digest written by `pocl_binary_set_program_buildhash`. -/
  buildhash : Nat → Blob → Nat
  /-- whether `pocl_cache_create_program_cachedir` returns non-zero. -/
  cachedir_fails : Nat → Blob → Bool
  /-- whether `pocl_binary_deserialize` returns non-zero. -/
  deserialize_fails : Nat → Blob → Bool
  /-- `pocl_exists (program_bc_path)` for this device/binary's cache entry. -/
  bc_exists : Nat → Blob → Bool
  /-- contents of the cached `program.bc`, when it exists. -/
  cached_bc : Nat → Blob → Blob

/-- A `cl_context`: its device list (`context->devices`,
`context->num_devices`). -/
structure Context where
  devices : List Nat
deriving DecidableEq

/-- The `_cl_program` fields touched by `create_program_skeleton`.  Each
per-device array is a Lean list; owned buffers are recorded as
(allocation id, contents) pairs; the allocation ids of the seven
`calloc`ed arrays, of the object itself, and of the resolved device list
are kept so that the cleanup paths can be tracked exactly. -/
structure Program where
  progAlloc : Nat
  num_devices : Nat
  devices : List Nat
  devicesAlloc : Nat
  binary_sizes : List Nat
  binary_sizesAlloc : Nat
  binaries : List (Option (Nat × Blob))
  binariesAlloc : Nat
  pocl_binaries : List (Option (Nat × Blob))
  pocl_binariesAlloc : Nat
  pocl_binary_sizes : List Nat
  pocl_binary_sizesAlloc : Nat
  build_log : List (Option Unit)
  build_logAlloc : Nat
  llvm_irs : List (Option Unit)
  llvm_irsAlloc : Nat
  build_hash : List Nat
  build_hashAlloc : Nat
  build_status : Int
  binary_type : Int
deriving DecidableEq

/-- What the call produces: a program (`return program` with
`*errcode_ret = CL_SUCCESS`), a null return with an error code, or an
`assert` failure (the process aborts; nothing is returned). -/
inductive Outcome where
  | ok (p : Program)
  | err (code : Int)
  | assertFail
deriving DecidableEq

def Outcome.isOk : Outcome → Bool
  | .ok _ => true
  | _ => false

/-- Observable final state of one call: the outcome, the allocation state,
the caller's `binary_status` array (entry `none` = never written), the
event trace, and how many times `POCL_RETAIN_OBJECT (context)` ran. -/
structure Result where
  outcome : Outcome
  heap : Heap
  status : List (Option Int)
  trace : List Event
  context_retains : Nat
deriving DecidableEq

/-- State threaded through the per-device loop. -/
structure LoopSt where
  prog : Program
  heap : Heap
  status : List (Option Int)
  trace : List Event
deriving DecidableEq

/-! ## Device-set resolution -/

/-- Modelled from the spec: the deduplication inside `pocl_unique_device_list`
(`pocl_util.c`, not under `src/`) — §4.1: "expand each caller-supplied device
that is a sub-device to its root device and deduplicate, yielding the
resolved count and list".  First occurrences are kept, preserving caller
order. -/
def uniqueAux : List Nat → List Nat → List Nat
  | [], _ => []
  | d :: ds, seen =>
    if seen.contains d then uniqueAux ds seen else d :: uniqueAux ds (d :: seen)

/-- Modelled from the spec: `pocl_unique_device_list` — root-expansion
followed by deduplication (spec §4.1 step 2). -/
def resolveDevices (env : Env) (dl : List Nat) : List Nat :=
  uniqueAux (dl.map env.root) []

/-! ## Argument validation helpers (lines 55-96) -/

/-- The per-element check of lines 59-64: every `lengths[i]` non-zero and
every `binaries[i]` non-null. -/
def lengthsOk (lens : List Nat) (bins : List (Option Blob)) (n : Nat) : Bool :=
  (List.range n).all fun i => !(lens.getD i 0 == 0) && (bins.getD i none).isSome

/-- The duplicate check of lines 67-78: some device of the context occurs
more than once among the first `num_devices` entries of `device_list`. -/
def hasDuplicate (ctxDevs : List Nat) (dl : List Nat) : Bool :=
  ctxDevs.any fun d => 1 < dl.count d

/-- The membership check of lines 86-96: every resolved device occurs in the
context's device list. -/
def allInContext (ctxDevs udl : List Nat) : Bool :=
  udl.all fun d => ctxDevs.contains d

/-! ## Binary-format classification (the else-if chain of lines 135-227) -/

/-- `strncmp ((const char*)binaries[i], "BC", 2) == 0`: the first two bytes
are 'B' (66) and 'C' (67). -/
def startsWithBC : Blob → Bool
  | b :: c :: _ => b == 66 && c == 67
  | _ => false

inductive Format where
  | nativeIR
  | portable
  | packed
  | unrecognized
deriving DecidableEq

/-- The classification implied by the source's else-if chain, in its fixed
priority order: the `"BC"` prefix test (line 138), then
`bitcode_is_spirv` guarded by `OCS_AVAILABLE` (line 149), then
`pocl_binary_check_binary` (line 194), else unrecognized (line 220). -/
def classify (env : Env) (dev : Nat) (blob : Blob) (len : Nat) : Format :=
  if startsWithBC blob then .nativeIR
  else if env.ocsAvailable && env.is_spirv blob len then .portable
  else if env.check_binary dev blob then .packed
  else .unrecognized

/-! ## Exit paths -/

/-- The `ERROR` label (lines 254-260): free `unique_devlist` (a no-op while
it is still NULL), store the error code, return NULL. -/
def exitERROR (code : Int) (devlistAlloc : Option Nat) (h : Heap)
    (status : List (Option Int)) (trace : List Event) : Result :=
  { outcome := .err code,
    heap := match devlistAlloc with | some a => h.free a | none => h,
    status := status, trace := trace, context_retains := 0 }

/-- Free every owned per-device buffer of one array (the cleanup loops of
lines 242-244 and 247-249). -/
def freeSlots (h : Heap) (l : List (Option (Nat × Blob))) : Heap :=
  l.foldl (fun h s => match s with | some ab => h.free ab.1 | none => h) h

/-- The `ERROR_CLEAN_PROGRAM_AND_BINARIES` label (lines 241-253): free the
per-device IR and packed-binary buffers, the four owning arrays, and the
program object, then fall through to `ERROR`.  Note that the `build_log`,
`llvm_irs` and `build_hash` arrays are not freed here — exactly as in the
source. -/
def exitCLEAN (code : Int) (devlistAlloc : Nat) (st : LoopSt) : Result :=
  let h := freeSlots st.heap st.prog.binaries
  let h := h.free st.prog.binariesAlloc
  let h := h.free st.prog.binary_sizesAlloc
  let h := freeSlots h st.prog.pocl_binaries
  let h := h.free st.prog.pocl_binariesAlloc
  let h := h.free st.prog.pocl_binary_sizesAlloc
  let h := h.free st.prog.progAlloc
  exitERROR code (some devlistAlloc) h st.status st.trace

/-- The `SUCCESS` label (lines 230-235): retain the context once, store
`CL_SUCCESS`, return the program. -/
def exitSUCCESS (st : LoopSt) : Result :=
  { outcome := .ok st.prog, heap := st.heap, status := st.status,
    trace := st.trace, context_retains := 1 }

/-! ## The per-device loop (lines 135-228) -/

/-- Static data of one call, shared by every loop iteration. -/
structure CallCtx where
  env : Env
  /-- the resolved (unique) device list; `device_list` after line 84. -/
  udl : List Nat
  /-- `lengths[i]` (caller array, indexed by post-dedup position). -/
  lenAt : Nat → Nat
  /-- `binaries[i]` (caller array, indexed by post-dedup position). -/
  binAt : Nat → Blob
  /-- whether the caller passed a non-null `binary_status`. -/
  bstat : Bool
  /-- allocation id of `unique_devlist`. -/
  devlistAlloc : Nat

def lenAtOf (lengths : Option (List Nat)) : Nat → Nat :=
  fun i => (lengths.getD []).getD i 0

def binAtOf (binaries : Option (List (Option Blob))) : Nat → Blob :=
  fun i => ((binaries.getD []).getD i none).getD []

/-- `if (binary_status != NULL) binary_status[i] = v;` -/
def setStatus (cc : CallCtx) (st : LoopSt) (i : Nat) (v : Int) : LoopSt :=
  if cc.bstat then { st with status := st.status.set i (some v) } else st

/-- One iteration of the loop of lines 135-228, for device index `i`.
`Sum.inl` continues with the next device; `Sum.inr` is an early exit of the
whole call. -/
def step (cc : CallCtx) (i : Nat) (st : LoopSt) : LoopSt ⊕ Result :=
  let blob := cc.binAt i
  let len := cc.lenAt i
  let dev := cc.udl.getD i 0
  if startsWithBC blob then
    -- lines 138-145: LLVM IR
    let a := st.heap.alloc.1
    let h := st.heap.alloc.2
    let st2 : LoopSt :=
      { st with
        prog := { st.prog with
          binary_sizes := st.prog.binary_sizes.set i len,
          binaries := st.prog.binaries.set i (some (a, blob.take len)) },
        heap := h,
        trace := st.trace ++ [Event.copyBinary i] }
    .inl (setStatus cc st2 i CL_SUCCESS)
  else if cc.env.ocsAvailable && cc.env.is_spirv blob len then
    -- lines 149-191: SPIR-V
    if !cc.env.spirv_is_opencl blob then
      .inr (exitERROR CL_BUILD_PROGRAM_FAILURE (some cc.devlistAlloc)
              st.heap st.status st.trace)
    else if !cc.env.hasSpirExt dev then
      .inr (exitERROR CL_BUILD_PROGRAM_FAILURE (some cc.devlistAlloc)
              st.heap st.status st.trace)
    else if !cc.env.enableSpirv then
      .inr (exitERROR CL_BUILD_PROGRAM_FAILURE (some cc.devlistAlloc)
              st.heap st.status st.trace)
    else
      let tr := st.trace ++ [Event.writeSpirvTemp i, Event.runConverter i]
      if cc.env.run_exit blob = 0 then
        let conv := cc.env.converted blob
        let a := st.heap.alloc.1
        let h := st.heap.alloc.2
        .inl { st with
          prog := { st.prog with
            binary_sizes := st.prog.binary_sizes.set i conv.length,
            binaries := st.prog.binaries.set i (some (a, conv)) },
          heap := h,
          trace := tr ++ [Event.readConverted i, Event.removeTemp i] }
        -- note: this branch never touches binary_status
      else
        -- `assert (errcode == 0)` fails: the process aborts
        .inr { outcome := .assertFail, heap := st.heap, status := st.status,
               trace := tr, context_retains := 0 }
  else if cc.env.check_binary dev blob then
    -- lines 194-218: pocl binary
    let copy := blob.take len
    let a := st.heap.alloc.1
    let h := st.heap.alloc.2
    let st2 : LoopSt :=
      { st with
        prog := { st.prog with
          pocl_binary_sizes := st.prog.pocl_binary_sizes.set i len,
          pocl_binaries := st.prog.pocl_binaries.set i (some (a, copy)),
          build_hash := st.prog.build_hash.set i (cc.env.buildhash dev copy) },
        heap := h,
        trace := st.trace ++ [Event.copyPoclBinary i, Event.setBuildHash i,
                              Event.createCachedir i] }
    if cc.env.cachedir_fails dev copy then
      .inr (exitERROR CL_BUILD_PROGRAM_FAILURE (some cc.devlistAlloc)
              st2.heap st2.status st2.trace)
    else if cc.env.deserialize_fails dev copy then
      .inr (exitERROR CL_INVALID_BINARY (some cc.devlistAlloc)
              st2.heap st2.status (st2.trace ++ [Event.deserializePocl i]))
    else
      let st3 : LoopSt :=
        { st2 with
          prog := { st2.prog with llvm_irs := st2.prog.llvm_irs.set i (some ()) },
          trace := st2.trace ++ [Event.deserializePocl i] }
      let st4 : LoopSt :=
        if cc.env.bc_exists dev copy then
          let bc := cc.env.cached_bc dev copy
          let a2 := st3.heap.alloc.1
          let h2 := st3.heap.alloc.2
          { st3 with
            prog := { st3.prog with
              binaries := st3.prog.binaries.set i (some (a2, bc)),
              binary_sizes := st3.prog.binary_sizes.set i bc.length },
            heap := h2,
            trace := st3.trace ++ [Event.loadCachedBC i] }
        else st3
      .inl (setStatus cc st4 i CL_SUCCESS)
  else
    -- lines 220-227: unknown binary
    let st2 := setStatus cc st i CL_INVALID_BINARY
    .inr (exitCLEAN CL_INVALID_BINARY cc.devlistAlloc st2)

/-- The loop itself, over the remaining device indices; falling off the end
reaches the `SUCCESS` label. -/
def loop (cc : CallCtx) : List Nat → LoopSt → Result
  | [], st => exitSUCCESS st
  | i :: is, st =>
    match step cc i st with
    | .inl st2 => loop cc is st2
    | .inr r => r

/-! ## The function itself -/

/-- Shallow embedding of `create_program_skeleton`
(`lib/CL/clCreateProgramWithBinary.c`, lines 37-261).  `none` stands for a
NULL pointer argument; `binary_status` is the flag "the caller passed a
non-null status array". -/
def create_program_skeleton (env : Env) (ctx : Option Context)
    (num_devices : Nat) (device_list : Option (List Nat))
    (lengths : Option (List Nat)) (binaries : Option (List (Option Blob)))
    (binary_status : Bool) (allow_empty_binaries : Bool) : Result :=
  let status0 : List (Option Int) := List.replicate num_devices none
  match ctx with
  | none => exitERROR CL_INVALID_CONTEXT none Heap.empty status0 []
  | some ctx =>
    match device_list with
    | none => exitERROR CL_INVALID_VALUE none Heap.empty status0 []
    | some dl0 =>
      if num_devices = 0 then exitERROR CL_INVALID_VALUE none Heap.empty status0 []
      else if !allow_empty_binaries && lengths.isNone then
        exitERROR CL_INVALID_VALUE none Heap.empty status0 []
      else if !allow_empty_binaries &&
          !lengthsOk (lengths.getD []) (binaries.getD []) num_devices then
        exitERROR CL_INVALID_VALUE none Heap.empty status0 []
      else if hasDuplicate ctx.devices (dl0.take num_devices) then
        exitERROR CL_INVALID_DEVICE none Heap.empty status0 []
      else
        let udl := resolveDevices env (dl0.take num_devices)
        let aDev := Heap.empty.alloc.1
        let h1 := Heap.empty.alloc.2
        if !allInContext ctx.devices udl then
          exitERROR CL_INVALID_DEVICE (some aDev) h1 status0 []
        else
          let m := udl.length
          let aProg := h1.alloc.1
          let h2 := h1.alloc.2
          let aSizes := h2.alloc.1
          let h3 := h2.alloc.2
          let aBins := h3.alloc.1
          let h4 := h3.alloc.2
          let aPocl := h4.alloc.1
          let h5 := h4.alloc.2
          let aPoclSizes := h5.alloc.1
          let h6 := h5.alloc.2
          let aLog := h6.alloc.1
          let h7 := h6.alloc.2
          let aIrs := h7.alloc.1
          let h8 := h7.alloc.2
          let aHash := h8.alloc.1
          let h9 := h8.alloc.2
          let prog : Program :=
            { progAlloc := aProg, num_devices := m, devices := udl,
              devicesAlloc := aDev,
              binary_sizes := List.replicate m 0, binary_sizesAlloc := aSizes,
              binaries := List.replicate m none, binariesAlloc := aBins,
              pocl_binaries := List.replicate m none, pocl_binariesAlloc := aPocl,
              pocl_binary_sizes := List.replicate m 0,
              pocl_binary_sizesAlloc := aPoclSizes,
              build_log := List.replicate m none, build_logAlloc := aLog,
              llvm_irs := List.replicate m none, llvm_irsAlloc := aIrs,
              build_hash := List.replicate m 0, build_hashAlloc := aHash,
              build_status := CL_BUILD_NONE,
              binary_type := CL_PROGRAM_BINARY_TYPE_NONE }
          let st0 : LoopSt := ⟨prog, h9, status0, []⟩
          if allow_empty_binaries && lengths.isNone && binaries.isNone then
            exitSUCCESS st0
          else
            let cc : CallCtx :=
              { env := env, udl := udl, lenAt := lenAtOf lengths,
                binAt := binAtOf binaries, bstat := binary_status,
                devlistAlloc := aDev }
            loop cc (List.range m) st0

/-- The public entry point (lines 263-270): `allow_empty_binaries = 0`. -/
def clCreateProgramWithBinary (env : Env) (ctx : Option Context)
    (num_devices : Nat) (device_list : Option (List Nat))
    (lengths : Option (List Nat)) (binaries : Option (List (Option Blob)))
    (binary_status : Bool) : Result :=
  create_program_skeleton env ctx num_devices device_list lengths binaries
    binary_status false

end PoclBinary

namespace PoclBinary

/-! ## Helper lemmas: shapes preserved by the loop -/

/-- `q` has the same device list, counts, status fields and per-device array
lengths as `p`; the per-device loop only ever rewrites single slots, so it
preserves this shape. -/
structure PShape (p q : Program) : Prop where
  devices : q.devices = p.devices
  num : q.num_devices = p.num_devices
  bstatus : q.build_status = p.build_status
  btype : q.binary_type = p.binary_type
  len_bsizes : q.binary_sizes.length = p.binary_sizes.length
  len_bins : q.binaries.length = p.binaries.length
  len_pocl : q.pocl_binaries.length = p.pocl_binaries.length
  len_psizes : q.pocl_binary_sizes.length = p.pocl_binary_sizes.length
  len_log : q.build_log.length = p.build_log.length
  len_irs : q.llvm_irs.length = p.llvm_irs.length
  len_hash : q.build_hash.length = p.build_hash.length

theorem pshape_refl (p : Program) : PShape p p :=
  ⟨rfl, rfl, rfl, rfl, rfl, rfl, rfl, rfl, rfl, rfl, rfl⟩

theorem pshape_trans {p q r : Program} (h1 : PShape p q) (h2 : PShape q r) :
    PShape p r :=
  ⟨h2.devices.trans h1.devices, h2.num.trans h1.num,
   h2.bstatus.trans h1.bstatus, h2.btype.trans h1.btype,
   h2.len_bsizes.trans h1.len_bsizes, h2.len_bins.trans h1.len_bins,
   h2.len_pocl.trans h1.len_pocl, h2.len_psizes.trans h1.len_psizes,
   h2.len_log.trans h1.len_log, h2.len_irs.trans h1.len_irs,
   h2.len_hash.trans h1.len_hash⟩

/-- Shape preservation for a loop state: program shape plus the length of the
caller's status array. -/
def Pres (st st2 : LoopSt) : Prop :=
  PShape st.prog st2.prog ∧ st2.status.length = st.status.length

theorem pres_refl (st : LoopSt) : Pres st st := ⟨pshape_refl _, rfl⟩

theorem pres_trans {s t u : LoopSt} (h1 : Pres s t) (h2 : Pres t u) : Pres s u :=
  ⟨pshape_trans h1.1 h2.1, h2.2.trans h1.2⟩

theorem setStatus_prog (cc : CallCtx) (st : LoopSt) (i : Nat) (v : Int) :
    (setStatus cc st i v).prog = st.prog := by
  unfold setStatus; split <;> rfl

theorem setStatus_heap (cc : CallCtx) (st : LoopSt) (i : Nat) (v : Int) :
    (setStatus cc st i v).heap = st.heap := by
  unfold setStatus; split <;> rfl

theorem setStatus_trace (cc : CallCtx) (st : LoopSt) (i : Nat) (v : Int) :
    (setStatus cc st i v).trace = st.trace := by
  unfold setStatus; split <;> rfl

theorem setStatus_status_len (cc : CallCtx) (st : LoopSt) (i : Nat) (v : Int) :
    (setStatus cc st i v).status.length = st.status.length := by
  unfold setStatus; split <;> simp

theorem setStatus_status_ne (cc : CallCtx) (st : LoopSt) (i : Nat) (v : Int)
    {k : Nat} (h : k ≠ i) :
    (setStatus cc st i v).status[k]? = st.status[k]? := by
  unfold setStatus; split
  · exact List.getElem?_set_ne (fun he => h he.symm)
  · rfl

theorem setStatus_status_eq (cc : CallCtx) (st : LoopSt) (i : Nat) (v : Int)
    (hb : cc.bstat = true) (hi : i < st.status.length) :
    (setStatus cc st i v).status[i]? = some (some v) := by
  unfold setStatus
  simp [hb, List.getElem?_set_self', hi]

/-! ## Helper lemmas: the resolved device list is no longer than the input -/

theorem uniqueAux_length_le (l seen : List Nat) :
    (uniqueAux l seen).length ≤ l.length := by
  induction l generalizing seen with
  | nil => simp [uniqueAux]
  | cons d ds ih =>
    simp only [uniqueAux]
    split
    · exact Nat.le_trans (ih seen) (Nat.le_succ _)
    · simpa using ih (d :: seen)

theorem resolveDevices_length_le (env : Env) (dl : List Nat) :
    (resolveDevices env dl).length ≤ dl.length := by
  simpa [resolveDevices] using uniqueAux_length_le (dl.map env.root) []

theorem resolved_le (env : Env) (dl : List Nat) (n : Nat) :
    (resolveDevices env (dl.take n)).length ≤ n :=
  Nat.le_trans (resolveDevices_length_le env (dl.take n))
    (by simp [List.length_take_le])

/-! ## Helper lemmas: splitting `List.range` at an index -/

theorem range_split {i n : Nat} (h : i ≤ n) :
    List.range n = List.range i ++ List.range' i (n - i) := by
  rw [List.range_eq_range', List.range_eq_range']
  have h2 := List.range'_append_1 0 i (n - i)
  simp only [Nat.zero_add] at h2
  rw [h2]
  congr 1
  omega

theorem range'_cons {i k : Nat} (h : 0 < k) :
    List.range' i k = i :: List.range' (i + 1) (k - 1) := by
  cases k with
  | zero => omega
  | succ k2 => simpa using List.range'_succ i k2 1

end PoclBinary

namespace PoclBinary

/-! ## Helper lemmas: the classification chain -/

theorem classify_nativeIR {env : Env} {dev : Nat} {blob : Blob} {len : Nat}
    (h : classify env dev blob len = .nativeIR) : startsWithBC blob = true := by
  unfold classify at h
  split at h
  · assumption
  · split at h
    · simp_all
    · split at h <;> simp_all

theorem classify_portable {env : Env} {dev : Nat} {blob : Blob} {len : Nat}
    (h : classify env dev blob len = .portable) :
    startsWithBC blob = false ∧ (env.ocsAvailable && env.is_spirv blob len) = true := by
  unfold classify at h
  split at h
  · simp_all
  · split at h
    · simp_all
    · split at h <;> simp_all

theorem classify_packed {env : Env} {dev : Nat} {blob : Blob} {len : Nat}
    (h : classify env dev blob len = .packed) :
    startsWithBC blob = false ∧ (env.ocsAvailable && env.is_spirv blob len) = false ∧
      env.check_binary dev blob = true := by
  unfold classify at h
  split at h
  · simp_all
  · split at h
    · simp_all
    · split at h <;> simp_all

theorem classify_unrecognized {env : Env} {dev : Nat} {blob : Blob} {len : Nat}
    (h : classify env dev blob len = .unrecognized) :
    startsWithBC blob = false ∧ (env.ocsAvailable && env.is_spirv blob len) = false ∧
      env.check_binary dev blob = false := by
  unfold classify at h
  split at h
  · simp_all
  · split at h
    · simp_all
    · split at h <;> simp_all

/-! ## Helper lemmas: one loop iteration -/

/-- Device `j`'s branch runs to completion without an early exit: native IR
always does; the portable branch needs the OpenCL execution model, SPIR
support, `ENABLE_SPIRV` and a zero converter exit; the packed branch needs
the cache directory and deserialization to succeed. -/
def branchOk (env : Env) (udl : List Nat) (lenAt : Nat → Nat)
    (binAt : Nat → Blob) (j : Nat) : Bool :=
  let blob := binAt j
  let len := lenAt j
  let dev := udl.getD j 0
  let copy := blob.take len
  match classify env dev blob len with
  | .nativeIR => true
  | .portable =>
      env.spirv_is_opencl blob && env.hasSpirExt dev && env.enableSpirv &&
        (env.run_exit blob == 0)
  | .packed => !env.cachedir_fails dev copy && !env.deserialize_fails dev copy
  | .unrecognized => false

theorem step_inl_pres {cc : CallCtx} {i : Nat} {st st2 : LoopSt}
    (h : step cc i st = .inl st2) :
    Pres st st2 ∧ ∀ k, k ≠ i → st2.status[k]? = st.status[k]? := by
  simp only [step] at h
  by_cases hbc : startsWithBC (cc.binAt i) = true
  · rw [if_pos hbc] at h
    injection h with h
    subst h
    refine ⟨⟨?_, setStatus_status_len _ _ _ _⟩,
            fun k hk => setStatus_status_ne _ _ _ _ hk⟩
    rw [setStatus_prog]
    constructor <;> simp [List.length_set]
  · rw [if_neg hbc] at h
    by_cases hsp : (cc.env.ocsAvailable && cc.env.is_spirv (cc.binAt i) (cc.lenAt i)) = true
    · rw [if_pos hsp] at h
      by_cases hcl : (!cc.env.spirv_is_opencl (cc.binAt i)) = true
      · rw [if_pos hcl] at h; exact absurd h (by simp)
      · rw [if_neg hcl] at h
        by_cases hext : (!cc.env.hasSpirExt (cc.udl.getD i 0)) = true
        · rw [if_pos hext] at h; exact absurd h (by simp)
        · rw [if_neg hext] at h
          by_cases hen : (!cc.env.enableSpirv) = true
          · rw [if_pos hen] at h; exact absurd h (by simp)
          · rw [if_neg hen] at h
            by_cases hrun : cc.env.run_exit (cc.binAt i) = 0
            · rw [if_pos hrun] at h
              injection h with h
              subst h
              refine ⟨⟨?_, rfl⟩, fun k _ => rfl⟩
              constructor <;> simp [List.length_set]
            · rw [if_neg hrun] at h; exact absurd h (by simp)
    · rw [if_neg hsp] at h
      by_cases hchk : cc.env.check_binary (cc.udl.getD i 0) (cc.binAt i) = true
      · rw [if_pos hchk] at h
        by_cases hcf : cc.env.cachedir_fails (cc.udl.getD i 0)
            ((cc.binAt i).take (cc.lenAt i)) = true
        · rw [if_pos hcf] at h; exact absurd h (by simp)
        · rw [if_neg hcf] at h
          by_cases hdf : cc.env.deserialize_fails (cc.udl.getD i 0)
              ((cc.binAt i).take (cc.lenAt i)) = true
          · rw [if_pos hdf] at h; exact absurd h (by simp)
          · rw [if_neg hdf] at h
            injection h with h
            subst h
            refine ⟨⟨?_, ?_⟩, ?_⟩
            · rw [setStatus_prog]
              split <;> constructor <;> simp [List.length_set]
            · rw [setStatus_status_len]
              split <;> rfl
            · intro k hk
              rw [setStatus_status_ne _ _ _ _ hk]
              split <;> rfl
      · rw [if_neg hchk] at h; exact absurd h (by simp)

theorem step_inr_not_ok {cc : CallCtx} {i : Nat} {st : LoopSt} {r : Result}
    (h : step cc i st = .inr r) :
    (∀ p, r.outcome ≠ .ok p) ∧ r.context_retains = 0 := by
  simp only [step] at h
  by_cases hbc : startsWithBC (cc.binAt i) = true
  · rw [if_pos hbc] at h; exact absurd h (by simp)
  · rw [if_neg hbc] at h
    by_cases hsp : (cc.env.ocsAvailable && cc.env.is_spirv (cc.binAt i) (cc.lenAt i)) = true
    · rw [if_pos hsp] at h
      by_cases hcl : (!cc.env.spirv_is_opencl (cc.binAt i)) = true
      · rw [if_pos hcl] at h
        injection h with h
        subst h
        exact ⟨by simp [exitERROR], rfl⟩
      · rw [if_neg hcl] at h
        by_cases hext : (!cc.env.hasSpirExt (cc.udl.getD i 0)) = true
        · rw [if_pos hext] at h
          injection h with h
          subst h
          exact ⟨by simp [exitERROR], rfl⟩
        · rw [if_neg hext] at h
          by_cases hen : (!cc.env.enableSpirv) = true
          · rw [if_pos hen] at h
            injection h with h
            subst h
            exact ⟨by simp [exitERROR], rfl⟩
          · rw [if_neg hen] at h
            by_cases hrun : cc.env.run_exit (cc.binAt i) = 0
            · rw [if_pos hrun] at h; exact absurd h (by simp)
            · rw [if_neg hrun] at h
              injection h with h
              subst h
              exact ⟨by simp, rfl⟩
    · rw [if_neg hsp] at h
      by_cases hchk : cc.env.check_binary (cc.udl.getD i 0) (cc.binAt i) = true
      · rw [if_pos hchk] at h
        by_cases hcf : cc.env.cachedir_fails (cc.udl.getD i 0)
            ((cc.binAt i).take (cc.lenAt i)) = true
        · rw [if_pos hcf] at h
          injection h with h
          subst h
          exact ⟨by simp [exitERROR], rfl⟩
        · rw [if_neg hcf] at h
          by_cases hdf : cc.env.deserialize_fails (cc.udl.getD i 0)
              ((cc.binAt i).take (cc.lenAt i)) = true
          · rw [if_pos hdf] at h
            injection h with h
            subst h
            exact ⟨by simp [exitERROR], rfl⟩
          · rw [if_neg hdf] at h; exact absurd h (by simp)
      · rw [if_neg hchk] at h
        injection h with h
        subst h
        exact ⟨by simp [exitCLEAN, exitERROR], by simp [exitCLEAN, exitERROR]⟩

theorem step_ok {cc : CallCtx} {j : Nat}
    (h : branchOk cc.env cc.udl cc.lenAt cc.binAt j = true) (st : LoopSt) :
    ∃ st2, step cc j st = .inl st2 := by
  simp only [branchOk] at h
  cases hc : classify cc.env (cc.udl.getD j 0) (cc.binAt j) (cc.lenAt j) with
  | nativeIR =>
    have hbc := classify_nativeIR hc
    simp only [step]
    rw [if_pos hbc]
    exact ⟨_, rfl⟩
  | portable =>
    rw [hc] at h
    obtain ⟨hbc, hsp⟩ := classify_portable hc
    simp only [Bool.and_eq_true, beq_iff_eq] at h
    obtain ⟨⟨⟨hcl, hext⟩, hen⟩, hexit⟩ := h
    simp only [List.getD_eq_getElem?_getD] at hext
    simp only [step]
    rw [if_neg (by simp [hbc]), if_pos hsp, if_neg (by simp [hcl]),
        if_neg (by simp [hext]), if_neg (by simp [hen]), if_pos hexit]
    exact ⟨_, rfl⟩
  | packed =>
    rw [hc] at h
    obtain ⟨hbc, hsp, hchk⟩ := classify_packed hc
    simp only [Bool.and_eq_true, Bool.not_eq_true'] at h
    obtain ⟨hcf, hdf⟩ := h
    simp only [List.getD_eq_getElem?_getD] at hcf hdf
    simp only [step]
    rw [if_neg (by simp [hbc]), if_neg (by simp [hsp]), if_pos hchk,
        if_neg (by simp [hcf]), if_neg (by simp [hdf])]
    exact ⟨_, rfl⟩
  | unrecognized => rw [hc] at h; simp at h

end PoclBinary

namespace PoclBinary

/-! ## Helper lemmas: the whole loop -/

theorem loop_ok_shape {cc : CallCtx} (l : List Nat) (st : LoopSt) (p : Program)
    (h : (loop cc l st).outcome = .ok p) :
    PShape st.prog p ∧ (loop cc l st).context_retains = 1 := by
  induction l generalizing st with
  | nil =>
    simp only [loop, exitSUCCESS, Outcome.ok.injEq] at h ⊢
    subst h
    exact ⟨pshape_refl _, trivial⟩
  | cons j l ih =>
    simp only [loop] at h ⊢
    cases hs : step cc j st with
    | inl st2 =>
      rw [hs] at h
      dsimp only at h ⊢
      obtain ⟨h1, h2⟩ := ih st2 h
      exact ⟨pshape_trans (step_inl_pres hs).1.1 h1, h2⟩
    | inr r =>
      rw [hs] at h
      dsimp only at h ⊢
      exact absurd h ((step_inr_not_ok hs).1 p)

theorem loop_reach {cc : CallCtx} (l1 l2 : List Nat) (st : LoopSt)
    (h : ∀ j ∈ l1, branchOk cc.env cc.udl cc.lenAt cc.binAt j = true) :
    ∃ st2, loop cc (l1 ++ l2) st = loop cc l2 st2 ∧ Pres st st2 ∧
      ∀ k, k ∉ l1 → st2.status[k]? = st.status[k]? := by
  induction l1 generalizing st with
  | nil => exact ⟨st, rfl, pres_refl st, fun k _ => rfl⟩
  | cons j l1 ih =>
    obtain ⟨stj, hstep⟩ := step_ok (h j (by simp)) st
    obtain ⟨st2, heq, hpres, hstat⟩ := ih stj (fun k hk => h k (by simp [hk]))
    refine ⟨st2, ?_, pres_trans (step_inl_pres hstep).1 hpres, ?_⟩
    · simpa [loop, hstep] using heq
    · intro k hk
      simp only [List.mem_cons, not_or] at hk
      rw [hstat k hk.2, (step_inl_pres hstep).2 k hk.1]

/-! ## Helper definitions: the freshly initialised object (lines 98-133) -/

/-- The heap right after the eight construction-time allocations:
`unique_devlist` (id 0), the program object (id 1), and the seven
per-device arrays (ids 2-8). -/
def initHeap : Heap := ⟨9, [0, 1, 2, 3, 4, 5, 6, 7, 8]⟩

/-- The program object as first populated (lines 104-129): all per-device
slots `calloc`-zeroed, build status and binary type "none". -/
def initProg (env : Env) (dlT : List Nat) : Program :=
  let udl := resolveDevices env dlT
  let m := udl.length
  { progAlloc := 1, num_devices := m, devices := udl, devicesAlloc := 0,
    binary_sizes := List.replicate m 0, binary_sizesAlloc := 2,
    binaries := List.replicate m none, binariesAlloc := 3,
    pocl_binaries := List.replicate m none, pocl_binariesAlloc := 4,
    pocl_binary_sizes := List.replicate m 0, pocl_binary_sizesAlloc := 5,
    build_log := List.replicate m none, build_logAlloc := 6,
    llvm_irs := List.replicate m none, llvm_irsAlloc := 7,
    build_hash := List.replicate m 0, build_hashAlloc := 8,
    build_status := CL_BUILD_NONE, binary_type := CL_PROGRAM_BINARY_TYPE_NONE }

/-- The call context with which the per-device loop runs. -/
def callCC (env : Env) (n : Nat) (dl : List Nat) (lengths : Option (List Nat))
    (binaries : Option (List (Option Blob))) (bs : Bool) : CallCtx :=
  { env := env, udl := resolveDevices env (dl.take n),
    lenAt := lenAtOf lengths, binAt := binAtOf binaries,
    bstat := bs, devlistAlloc := 0 }

/-- When every argument check passes and the empty-binaries shortcut does not
apply, the call runs the per-device loop from the freshly initialised
state. -/
theorem skeleton_loop (env : Env) (ctx : Context) (n : Nat) (dl : List Nat)
    (lengths : Option (List Nat)) (binaries : Option (List (Option Blob)))
    (bs ae : Bool)
    (hn : n ≠ 0)
    (h1 : (!ae && lengths.isNone) = false)
    (h2 : (!ae && !lengthsOk (lengths.getD []) (binaries.getD []) n) = false)
    (h3 : hasDuplicate ctx.devices (dl.take n) = false)
    (h4 : allInContext ctx.devices (resolveDevices env (dl.take n)) = true)
    (h5 : (ae && lengths.isNone && binaries.isNone) = false) :
    create_program_skeleton env (some ctx) n (some dl) lengths binaries bs ae =
      loop (callCC env n dl lengths binaries bs)
        (List.range (resolveDevices env (dl.take n)).length)
        ⟨initProg env (dl.take n), initHeap, List.replicate n none, []⟩ := by
  simp only [create_program_skeleton, hn, h1, h2, h3, h4, h5, Heap.alloc,
    Heap.empty, callCC, initProg, initHeap, Bool.false_eq_true, if_false,
    ite_false]
  rfl

/-- The empty-binaries shortcut (lines 132-133): with a valid device list and
both `lengths` and `binaries` NULL, the call succeeds immediately from the
freshly initialised state. -/
theorem skeleton_empty (env : Env) (ctx : Context) (n : Nat) (dl : List Nat)
    (bs : Bool)
    (hn : n ≠ 0)
    (h3 : hasDuplicate ctx.devices (dl.take n) = false)
    (h4 : allInContext ctx.devices (resolveDevices env (dl.take n)) = true) :
    create_program_skeleton env (some ctx) n (some dl) none none bs true =
      exitSUCCESS ⟨initProg env (dl.take n), initHeap, List.replicate n none, []⟩ := by
  simp only [create_program_skeleton, hn, h3, h4, Heap.alloc, Heap.empty,
    initProg, initHeap, Option.isNone_none, Bool.not_true, Bool.false_and,
    Bool.and_true, Bool.true_and, Bool.and_self, Bool.false_eq_true, if_false,
    ite_false, if_true, ite_true]
  rfl

end PoclBinary

namespace PoclBinary

/-- Any call (with non-null context and device list) that returns a program
returns one with the freshly initialised shape, and retains the context
exactly once. -/
theorem skeleton_ok {env : Env} {ctx : Context} {n : Nat} {dl : List Nat}
    {lengths : Option (List Nat)} {binaries : Option (List (Option Blob))}
    {bs ae : Bool} {p : Program}
    (h : (create_program_skeleton env (some ctx) n (some dl) lengths binaries
            bs ae).outcome = .ok p) :
    PShape (initProg env (dl.take n)) p ∧
      (create_program_skeleton env (some ctx) n (some dl) lengths binaries
          bs ae).context_retains = 1 := by
  by_cases hn : n = 0
  · simp [create_program_skeleton, hn, exitERROR] at h
  by_cases h1 : (!ae && lengths.isNone) = true
  · simp [create_program_skeleton, hn, h1, exitERROR] at h
  rw [Bool.not_eq_true] at h1
  by_cases h2 : (!ae && !lengthsOk (lengths.getD []) (binaries.getD []) n) = true
  · simp [create_program_skeleton, hn, h1, h2, exitERROR] at h
  rw [Bool.not_eq_true] at h2
  by_cases h3 : hasDuplicate ctx.devices (dl.take n) = true
  · simp [create_program_skeleton, hn, h1, h2, h3, exitERROR] at h
  rw [Bool.not_eq_true] at h3
  by_cases h4 : allInContext ctx.devices (resolveDevices env (dl.take n)) = true
  case neg =>
    rw [Bool.not_eq_true] at h4
    simp [create_program_skeleton, hn, h1, h2, h3, h4, exitERROR] at h
  by_cases h5 : (ae && lengths.isNone && binaries.isNone) = true
  · simp only [Bool.and_eq_true, Option.isNone_iff_eq_none] at h5
    obtain ⟨⟨hae, hl⟩, hb⟩ := h5
    subst hae; subst hl; subst hb
    rw [skeleton_empty env ctx n dl bs hn h3 h4] at h ⊢
    simp only [exitSUCCESS, Outcome.ok.injEq] at h
    subst h
    exact ⟨pshape_refl _, rfl⟩
  · rw [Bool.not_eq_true] at h5
    rw [skeleton_loop env ctx n dl lengths binaries bs ae hn h1 h2 h3 h4 h5] at h ⊢
    exact loop_ok_shape _ _ p h

end PoclBinary

namespace PoclBinary

/-- Projection of a loop-step result onto its continue state. -/
def stepInl : LoopSt ⊕ Result → Option LoopSt
  | .inl st => some st
  | .inr _ => none

/-- A device whose branch succeeds through the native-IR or packed path ends
its iteration with its status slot set to success. -/
theorem step_ok_status {cc : CallCtx} {j : Nat}
    (h : branchOk cc.env cc.udl cc.lenAt cc.binAt j = true)
    (hnp : classify cc.env (cc.udl.getD j 0) (cc.binAt j) (cc.lenAt j) ≠ .portable)
    (st : LoopSt) :
    ∃ st2, step cc j st = .inl st2 ∧
      st2.status = (setStatus cc st j CL_SUCCESS).status := by
  simp only [branchOk] at h
  cases hc : classify cc.env (cc.udl.getD j 0) (cc.binAt j) (cc.lenAt j) with
  | nativeIR =>
    have hbc := classify_nativeIR hc
    simp only [step]
    rw [if_pos hbc]
    refine ⟨_, rfl, ?_⟩
    unfold setStatus
    split <;> rfl
  | portable => exact absurd hc hnp
  | packed =>
    rw [hc] at h
    obtain ⟨hbc, hsp, hchk⟩ := classify_packed hc
    simp only [Bool.and_eq_true, Bool.not_eq_true'] at h
    obtain ⟨hcf, hdf⟩ := h
    simp only [List.getD_eq_getElem?_getD] at hcf hdf
    simp only [step]
    rw [if_neg (by simp [hbc]), if_neg (by simp [hsp]), if_pos hchk,
        if_neg (by simp [hcf]), if_neg (by simp [hdf])]
    refine ⟨_, rfl, ?_⟩
    unfold setStatus
    split
    · split <;> rfl
    · split <;> rfl
  | unrecognized => rw [hc] at h; simp at h

/-- When the argument checks pass and devices `0 .. i-1` all succeed, the
call is the loop started at device `i` from a state that still has the
initial shape and untouched status entries from `i` on. -/
theorem skeleton_reach (env : Env) (ctx : Context) (n : Nat) (dl : List Nat)
    (lengths : Option (List Nat)) (binaries : Option (List (Option Blob)))
    (bs ae : Bool) (i : Nat)
    (hn : n ≠ 0)
    (h1 : (!ae && lengths.isNone) = false)
    (h2 : (!ae && !lengthsOk (lengths.getD []) (binaries.getD []) n) = false)
    (h3 : hasDuplicate ctx.devices (dl.take n) = false)
    (h4 : allInContext ctx.devices (resolveDevices env (dl.take n)) = true)
    (h5 : (ae && lengths.isNone && binaries.isNone) = false)
    (hi : i < (resolveDevices env (dl.take n)).length)
    (hreach : ∀ j, j < i →
      branchOk env (resolveDevices env (dl.take n)) (lenAtOf lengths)
        (binAtOf binaries) j = true) :
    ∃ st2,
      create_program_skeleton env (some ctx) n (some dl) lengths binaries bs ae =
        loop (callCC env n dl lengths binaries bs)
          (i :: List.range' (i + 1)
            ((resolveDevices env (dl.take n)).length - i - 1)) st2 ∧
      Pres ⟨initProg env (dl.take n), initHeap, List.replicate n none, []⟩ st2 ∧
      ∀ k, i ≤ k → st2.status[k]? =
        (List.replicate n (none : Option Int))[k]? := by
  rw [skeleton_loop env ctx n dl lengths binaries bs ae hn h1 h2 h3 h4 h5]
  rw [range_split (Nat.le_of_lt hi)]
  obtain ⟨st2, heq, hpres, hstat⟩ :=
    @loop_reach (callCC env n dl lengths binaries bs) (List.range i)
      (List.range' i ((resolveDevices env (dl.take n)).length - i))
      ⟨initProg env (dl.take n), initHeap, List.replicate n none, []⟩
      (by intro j hj; exact hreach j (List.mem_range.mp hj))
  refine ⟨st2, ?_, hpres, ?_⟩
  · rw [heq]
    rw [range'_cons (by omega)]
  · intro k hk
    exact hstat k (by simp; omega)

end PoclBinary

namespace PoclBinary

/-! ## Concrete environments for witnesses and counterexamples -/

/-- A concrete collaborator environment: no sub-devices, every device has
SPIR support, every blob passes the packed-binary check, the cache and
deserializer succeed, no cached IR artifact exists. -/
def envBase : Env :=
  { ocsAvailable := true
    enableSpirv := true
    root := id
    hasSpirExt := fun _ => true
    is_spirv := fun _ _ => false
    spirv_is_opencl := fun _ => true
    run_exit := fun _ => 0
    converted := fun b => b
    check_binary := fun _ _ => true
    buildhash := fun _ _ => 5
    cachedir_fails := fun _ _ => false
    deserialize_fails := fun _ _ => false
    bc_exists := fun _ _ => false
    cached_bc := fun _ _ => [] }

/-- Like `envBase` but `pocl_binary_deserialize` fails. -/
def envC1 : Env := { envBase with deserialize_fails := fun _ _ => true }

/-- Like `envBase` but every blob is an OpenCL-mode SPIR-V binary and the
converter succeeds, producing a two-byte result. -/
def envSpv : Env :=
  { envBase with
    is_spirv := fun _ _ => true
    converted := fun _ => [66, 67] }

/-- Like `envSpv` but the external converter exits with code 1. -/
def envC4 : Env := { envSpv with run_exit := fun _ => 1 }

/-! ## The claims -/

/-- C10: with a NULL context, `create_program_skeleton` — and therefore the
public `clCreateProgramWithBinary` entry point — returns NULL with
`CL_INVALID_CONTEXT` whatever the other arguments are, without allocating
anything, writing any status slot, or retaining anything. -/
theorem C10_null_context (env : Env) (n : Nat) (dl : Option (List Nat))
    (lengths : Option (List Nat)) (binaries : Option (List (Option Blob)))
    (bs ae : Bool) :
    create_program_skeleton env none n dl lengths binaries bs ae =
      { outcome := .err CL_INVALID_CONTEXT, heap := Heap.empty,
        status := List.replicate n none, trace := [], context_retains := 0 } ∧
    clCreateProgramWithBinary env none n dl lengths binaries bs =
      { outcome := .err CL_INVALID_CONTEXT, heap := Heap.empty,
        status := List.replicate n none, trace := [], context_retains := 0 } :=
  ⟨rfl, rfl⟩

/-- C1 (code bug): one device, a valid packed binary whose deserialization
fails.  The call does return NULL with `CL_INVALID_BINARY`, but it runs the
`ERROR` path (`POCL_GOTO_ERROR_ON` jumps to `ERROR`, not to
`ERROR_CLEAN_PROGRAM_AND_BINARIES`), which frees only the resolved device
list (allocation 0): the program object (1), its seven per-device arrays
(2-8) and the packed-binary copy (9) all stay allocated, contradicting the
claimed full release. -/
theorem C1_deserialize_leak :
    (create_program_skeleton envC1 (some ⟨[7]⟩) 1 (some [7]) (some [4])
        (some [some [1, 2, 3, 4]]) false false).outcome =
      .err CL_INVALID_BINARY ∧
    (create_program_skeleton envC1 (some ⟨[7]⟩) 1 (some [7]) (some [4])
        (some [some [1, 2, 3, 4]]) false false).heap.live =
      [1, 2, 3, 4, 5, 6, 7, 8, 9] := ⟨rfl, rfl⟩

/-- C2: every call that returns a program returns one whose device list is
the resolved (root-expanded, deduplicated) device list — fixing one shared
device order — and whose seven per-device arrays each have exactly one slot
per resolved device. -/
theorem C2_per_device_arrays (env : Env) (ctx : Context) (n : Nat)
    (dl : List Nat) (lengths : Option (List Nat))
    (binaries : Option (List (Option Blob))) (bs ae : Bool) (p : Program)
    (h : (create_program_skeleton env (some ctx) n (some dl) lengths binaries
            bs ae).outcome = .ok p) :
    p.devices = resolveDevices env (dl.take n) ∧
    p.num_devices = (resolveDevices env (dl.take n)).length ∧
    p.binary_sizes.length = p.num_devices ∧
    p.binaries.length = p.num_devices ∧
    p.pocl_binaries.length = p.num_devices ∧
    p.pocl_binary_sizes.length = p.num_devices ∧
    p.build_log.length = p.num_devices ∧
    p.llvm_irs.length = p.num_devices ∧
    p.build_hash.length = p.num_devices := by
  obtain ⟨hs, -⟩ := skeleton_ok h
  have h0 : p.devices = resolveDevices env (dl.take n) := by
    rw [hs.devices]; simp [initProg]
  have h1 : p.num_devices = (resolveDevices env (dl.take n)).length := by
    rw [hs.num]; simp [initProg]
  refine ⟨h0, h1, ?_, ?_, ?_, ?_, ?_, ?_, ?_⟩ <;>
    simp [hs.len_bsizes, hs.len_bins, hs.len_pocl, hs.len_psizes, hs.len_log,
      hs.len_irs, hs.len_hash, h1, initProg]

/-- Witness for C2 at a concrete successful call (empty-binaries mode, one
device). -/
theorem C2_per_device_arrays_witness :
    (initProg envBase ([3].take 1)).devices =
      resolveDevices envBase ([3].take 1) ∧
    (initProg envBase ([3].take 1)).num_devices =
      (resolveDevices envBase ([3].take 1)).length ∧
    (initProg envBase ([3].take 1)).binary_sizes.length =
      (initProg envBase ([3].take 1)).num_devices ∧
    (initProg envBase ([3].take 1)).binaries.length =
      (initProg envBase ([3].take 1)).num_devices ∧
    (initProg envBase ([3].take 1)).pocl_binaries.length =
      (initProg envBase ([3].take 1)).num_devices ∧
    (initProg envBase ([3].take 1)).pocl_binary_sizes.length =
      (initProg envBase ([3].take 1)).num_devices ∧
    (initProg envBase ([3].take 1)).build_log.length =
      (initProg envBase ([3].take 1)).num_devices ∧
    (initProg envBase ([3].take 1)).llvm_irs.length =
      (initProg envBase ([3].take 1)).num_devices ∧
    (initProg envBase ([3].take 1)).build_hash.length =
      (initProg envBase ([3].take 1)).num_devices :=
  C2_per_device_arrays envBase ⟨[3]⟩ 1 [3] none none false true
    (initProg envBase ([3].take 1)) (by decide)

/-- C9: every successful call returns a program in build status "none" and
binary type "none" and retains the context exactly once; in empty-binaries
mode (NULL lengths and binaries, valid device list) the call succeeds with
every per-device slot empty. -/
theorem C9_success_state :
    (∀ (env : Env) (ctx : Context) (n : Nat) (dl : List Nat)
        (lengths : Option (List Nat)) (binaries : Option (List (Option Blob)))
        (bs ae : Bool) (p : Program),
      (create_program_skeleton env (some ctx) n (some dl) lengths binaries
          bs ae).outcome = .ok p →
      p.build_status = CL_BUILD_NONE ∧
      p.binary_type = CL_PROGRAM_BINARY_TYPE_NONE ∧
      (create_program_skeleton env (some ctx) n (some dl) lengths binaries
          bs ae).context_retains = 1) ∧
    (∀ (env : Env) (ctx : Context) (n : Nat) (dl : List Nat) (bs : Bool),
      n ≠ 0 →
      hasDuplicate ctx.devices (dl.take n) = false →
      allInContext ctx.devices (resolveDevices env (dl.take n)) = true →
      (create_program_skeleton env (some ctx) n (some dl) none none bs
          true).outcome = .ok (initProg env (dl.take n)) ∧
      (initProg env (dl.take n)).binaries =
        List.replicate (resolveDevices env (dl.take n)).length none ∧
      (initProg env (dl.take n)).pocl_binaries =
        List.replicate (resolveDevices env (dl.take n)).length none ∧
      (initProg env (dl.take n)).binary_sizes =
        List.replicate (resolveDevices env (dl.take n)).length 0 ∧
      (initProg env (dl.take n)).pocl_binary_sizes =
        List.replicate (resolveDevices env (dl.take n)).length 0 ∧
      (initProg env (dl.take n)).build_log =
        List.replicate (resolveDevices env (dl.take n)).length none ∧
      (initProg env (dl.take n)).llvm_irs =
        List.replicate (resolveDevices env (dl.take n)).length none ∧
      (initProg env (dl.take n)).build_hash =
        List.replicate (resolveDevices env (dl.take n)).length 0 ∧
      (initProg env (dl.take n)).binary_type = CL_PROGRAM_BINARY_TYPE_NONE) := by
  constructor
  · intro env ctx n dl lengths binaries bs ae p h
    obtain ⟨hs, hr⟩ := skeleton_ok h
    refine ⟨?_, ?_, hr⟩
    · rw [hs.bstatus]; simp [initProg]
    · rw [hs.btype]; simp [initProg]
  · intro env ctx n dl bs hn h3 h4
    rw [skeleton_empty env ctx n dl bs hn h3 h4]
    exact ⟨rfl, rfl, rfl, rfl, rfl, rfl, rfl, rfl, rfl⟩

/-- Witness for C9: both conjuncts applied at a concrete call. -/
theorem C9_success_state_witness :
    ((initProg envBase ([3].take 1)).build_status = CL_BUILD_NONE ∧
     (initProg envBase ([3].take 1)).binary_type =
       CL_PROGRAM_BINARY_TYPE_NONE ∧
     (create_program_skeleton envBase (some ⟨[3]⟩) 1 (some [3]) none none
         false true).context_retains = 1) ∧
    ((create_program_skeleton envBase (some ⟨[3]⟩) 1 (some [3]) none none
         false true).outcome = .ok (initProg envBase ([3].take 1)) ∧
     (initProg envBase ([3].take 1)).binaries =
       List.replicate (resolveDevices envBase ([3].take 1)).length none ∧
     (initProg envBase ([3].take 1)).pocl_binaries =
       List.replicate (resolveDevices envBase ([3].take 1)).length none ∧
     (initProg envBase ([3].take 1)).binary_sizes =
       List.replicate (resolveDevices envBase ([3].take 1)).length 0 ∧
     (initProg envBase ([3].take 1)).pocl_binary_sizes =
       List.replicate (resolveDevices envBase ([3].take 1)).length 0 ∧
     (initProg envBase ([3].take 1)).build_log =
       List.replicate (resolveDevices envBase ([3].take 1)).length none ∧
     (initProg envBase ([3].take 1)).llvm_irs =
       List.replicate (resolveDevices envBase ([3].take 1)).length none ∧
     (initProg envBase ([3].take 1)).build_hash =
       List.replicate (resolveDevices envBase ([3].take 1)).length 0 ∧
     (initProg envBase ([3].take 1)).binary_type =
       CL_PROGRAM_BINARY_TYPE_NONE) :=
  ⟨C9_success_state.1 envBase ⟨[3]⟩ 1 [3] none none false true
      (initProg envBase ([3].take 1)) (by decide),
   C9_success_state.2 envBase ⟨[3]⟩ 1 [3] false (by decide) (by decide)
      (by decide)⟩

/-- C5 counterexample: device 0 is in the context and appears twice in the
device list, yet with a NULL `lengths` array the call fails with
`CL_INVALID_VALUE` — the lengths/binaries validation runs before the
duplicate check, so the claimed "always invalid-device regardless of the
other arguments" is false. -/
theorem C5_duplicate_cex :
    (create_program_skeleton envBase (some ⟨[0]⟩) 2 (some [0, 0]) none none
        false false).outcome = .err CL_INVALID_VALUE ∧
    CL_INVALID_VALUE ≠ CL_INVALID_DEVICE := ⟨rfl, by decide⟩

/-- C5 (amended): once the earlier checks pass (non-null context and device
list, non-zero count, and — unless empty binaries are allowed — valid
lengths/binaries), a context device occurring more than once in the
pre-expansion device list fails the call with `CL_INVALID_DEVICE`. -/
theorem C5_duplicate_device (env : Env) (ctx : Context) (n : Nat)
    (dl : List Nat) (lengths : Option (List Nat))
    (binaries : Option (List (Option Blob))) (bs ae : Bool)
    (hn : n ≠ 0)
    (h1 : (!ae && lengths.isNone) = false)
    (h2 : (!ae && !lengthsOk (lengths.getD []) (binaries.getD []) n) = false)
    (hdup : hasDuplicate ctx.devices (dl.take n) = true) :
    (create_program_skeleton env (some ctx) n (some dl) lengths binaries bs
        ae).outcome = .err CL_INVALID_DEVICE := by
  simp [create_program_skeleton, hn, h1, h2, hdup, exitERROR]

/-- Witness for C5 at a concrete call with valid lengths and binaries. -/
theorem C5_duplicate_device_witness :
    (create_program_skeleton envBase (some ⟨[0]⟩) 2 (some [0, 0])
        (some [1, 1]) (some [some [9], some [9]]) false false).outcome =
      .err CL_INVALID_DEVICE :=
  C5_duplicate_device envBase ⟨[0]⟩ 2 [0, 0] (some [1, 1])
    (some [some [9], some [9]]) false false (by decide) (by decide)
    (by decide) (by decide)

end PoclBinary

namespace PoclBinary

theorem callCC_env (env : Env) (n : Nat) (dl : List Nat)
    (lengths : Option (List Nat)) (binaries : Option (List (Option Blob)))
    (bs : Bool) : (callCC env n dl lengths binaries bs).env = env := rfl

theorem callCC_udl (env : Env) (n : Nat) (dl : List Nat)
    (lengths : Option (List Nat)) (binaries : Option (List (Option Blob)))
    (bs : Bool) :
    (callCC env n dl lengths binaries bs).udl =
      resolveDevices env (dl.take n) := rfl

theorem callCC_lenAt (env : Env) (n : Nat) (dl : List Nat)
    (lengths : Option (List Nat)) (binaries : Option (List (Option Blob)))
    (bs : Bool) :
    (callCC env n dl lengths binaries bs).lenAt = lenAtOf lengths := rfl

theorem callCC_binAt (env : Env) (n : Nat) (dl : List Nat)
    (lengths : Option (List Nat)) (binaries : Option (List (Option Blob)))
    (bs : Bool) :
    (callCC env n dl lengths binaries bs).binAt = binAtOf binaries := rfl

theorem callCC_bstat (env : Env) (n : Nat) (dl : List Nat)
    (lengths : Option (List Nat)) (binaries : Option (List (Option Blob)))
    (bs : Bool) : (callCC env n dl lengths binaries bs).bstat = bs := rfl

theorem callCC_devlistAlloc (env : Env) (n : Nat) (dl : List Nat)
    (lengths : Option (List Nat)) (binaries : Option (List (Option Blob)))
    (bs : Bool) : (callCC env n dl lengths binaries bs).devlistAlloc = 0 := rfl

/-- A stopping iteration only ever writes the status slot of its own device:
every other slot of the early-exit result is unchanged. -/
theorem step_inr_status {cc : CallCtx} {i : Nat} {st : LoopSt} {r : Result}
    (h : step cc i st = .inr r) :
    ∀ k, k ≠ i → r.status[k]? = st.status[k]? := by
  simp only [step] at h
  by_cases hbc : startsWithBC (cc.binAt i) = true
  · rw [if_pos hbc] at h; exact absurd h (by simp)
  · rw [if_neg hbc] at h
    by_cases hsp : (cc.env.ocsAvailable && cc.env.is_spirv (cc.binAt i) (cc.lenAt i)) = true
    · rw [if_pos hsp] at h
      by_cases hcl : (!cc.env.spirv_is_opencl (cc.binAt i)) = true
      · rw [if_pos hcl] at h
        injection h with h
        subst h
        intro k _
        rfl
      · rw [if_neg hcl] at h
        by_cases hext : (!cc.env.hasSpirExt (cc.udl.getD i 0)) = true
        · rw [if_pos hext] at h
          injection h with h
          subst h
          intro k _
          rfl
        · rw [if_neg hext] at h
          by_cases hen : (!cc.env.enableSpirv) = true
          · rw [if_pos hen] at h
            injection h with h
            subst h
            intro k _
            rfl
          · rw [if_neg hen] at h
            by_cases hrun : cc.env.run_exit (cc.binAt i) = 0
            · rw [if_pos hrun] at h; exact absurd h (by simp)
            · rw [if_neg hrun] at h
              injection h with h
              subst h
              intro k _
              rfl
    · rw [if_neg hsp] at h
      by_cases hchk : cc.env.check_binary (cc.udl.getD i 0) (cc.binAt i) = true
      · rw [if_pos hchk] at h
        by_cases hcf : cc.env.cachedir_fails (cc.udl.getD i 0)
            ((cc.binAt i).take (cc.lenAt i)) = true
        · rw [if_pos hcf] at h
          injection h with h
          subst h
          intro k _
          rfl
        · rw [if_neg hcf] at h
          by_cases hdf : cc.env.deserialize_fails (cc.udl.getD i 0)
              ((cc.binAt i).take (cc.lenAt i)) = true
          · rw [if_pos hdf] at h
            injection h with h
            subst h
            intro k _
            rfl
          · rw [if_neg hdf] at h; exact absurd h (by simp)
      · rw [if_neg hchk] at h
        injection h with h
        subst h
        intro k hk
        simp only [exitCLEAN, exitERROR]
        exact setStatus_status_ne _ _ _ _ hk

/-- However the rest of the loop ends — success, an error exit of either
kind, or the converter assertion — a status slot whose index is not among
the remaining devices keeps its value. -/
theorem loop_status_frame {cc : CallCtx} (l : List Nat) (st : LoopSt)
    (k : Nat) (hk : k ∉ l) :
    (loop cc l st).status[k]? = st.status[k]? := by
  induction l generalizing st with
  | nil => rfl
  | cons j l ih =>
    simp only [List.mem_cons, not_or] at hk
    simp only [loop]
    cases hs : step cc j st with
    | inl st2 =>
      dsimp only
      rw [ih st2 hk.2, (step_inl_pres hs).2 k hk.1]
    | inr r =>
      dsimp only
      exact step_inr_status hs k hk.1

/-- C3 counterexample: one device, an OpenCL-mode SPIR-V blob, successful
conversion, caller-supplied status array — the call succeeds, yet the
status slot stays unwritten (`none`), because the conversion branch never
touches `binary_status`. -/
theorem C3_spirv_status_cex :
    (create_program_skeleton envSpv (some ⟨[7]⟩) 1 (some [7]) (some [3])
        (some [some [9, 9, 9]]) true false).outcome.isOk = true ∧
    (create_program_skeleton envSpv (some ⟨[7]⟩) 1 (some [7]) (some [3])
        (some [some [9, 9, 9]]) true false).status = [none] := ⟨rfl, rfl⟩

/-- C3 (amended): when the caller supplies a status array, every device that
completes the native-IR or the packed branch (i.e. not the
portable-conversion branch) has its status slot set to `CL_SUCCESS` in the
result — whatever happens at the devices after it, success or failure. -/
theorem C3_status_success (env : Env) (ctx : Context) (n : Nat)
    (dl : List Nat) (lengths : Option (List Nat))
    (binaries : Option (List (Option Blob))) (ae : Bool) (i : Nat)
    (hn : n ≠ 0)
    (h1 : (!ae && lengths.isNone) = false)
    (h2 : (!ae && !lengthsOk (lengths.getD []) (binaries.getD []) n) = false)
    (h3 : hasDuplicate ctx.devices (dl.take n) = false)
    (h4 : allInContext ctx.devices (resolveDevices env (dl.take n)) = true)
    (h5 : (ae && lengths.isNone && binaries.isNone) = false)
    (hi : i < (resolveDevices env (dl.take n)).length)
    (hreach : ∀ j, j < i →
      branchOk env (resolveDevices env (dl.take n)) (lenAtOf lengths)
        (binAtOf binaries) j = true)
    (hok : branchOk env (resolveDevices env (dl.take n)) (lenAtOf lengths)
        (binAtOf binaries) i = true)
    (hnp : classify env ((resolveDevices env (dl.take n)).getD i 0)
        (binAtOf binaries i) (lenAtOf lengths i) ≠ .portable) :
    (create_program_skeleton env (some ctx) n (some dl) lengths binaries true
        ae).status[i]? = some (some CL_SUCCESS) := by
  obtain ⟨st2, heq, hpres, hstat⟩ :=
    skeleton_reach env ctx n dl lengths binaries true ae i hn h1 h2 h3 h4 h5
      hi hreach
  obtain ⟨st3, hstep, hst3⟩ :=
    @step_ok_status (callCC env n dl lengths binaries true) i hok hnp st2
  rw [heq]
  have hcons : loop (callCC env n dl lengths binaries true)
      (i :: List.range' (i + 1)
        ((resolveDevices env (dl.take n)).length - i - 1)) st2 =
      loop (callCC env n dl lengths binaries true)
        (List.range' (i + 1)
          ((resolveDevices env (dl.take n)).length - i - 1)) st3 := by
    simp [loop, hstep]
  rw [hcons]
  have hi_n : i < n := Nat.lt_of_lt_of_le hi (resolved_le env dl n)
  have hlen2 : st2.status.length = n := by
    rw [hpres.2]; simp
  have hframe : (loop (callCC env n dl lengths binaries true)
      (List.range' (i + 1)
        ((resolveDevices env (dl.take n)).length - i - 1)) st3).status[i]? =
      st3.status[i]? :=
    loop_status_frame _ st3 i (by rw [List.mem_range'_1]; omega)
  rw [hframe, hst3]
  rw [setStatus_status_eq _ _ _ _ (callCC_bstat _ _ _ _ _ _) (by omega)]

/-- C4 counterexample: an OpenCL-mode SPIR-V blob on a SPIR-capable device
with the converter exiting 1 — the call neither returns NULL with an error
code nor a program: the `assert (errcode == 0)` fires. -/
theorem C4_converter_cex :
    (create_program_skeleton envC4 (some ⟨[7]⟩) 1 (some [7]) (some [3])
        (some [some [9, 9, 9]]) true false).outcome = .assertFail := rfl

/-- C4 (amended): a non-zero exit of the external converter on the
portable-format path makes the call die on `assert (errcode == 0)` —
modelled as the `assertFail` outcome — rather than return NULL with an
error code (and rather than continue as if the conversion succeeded). -/
theorem C4_converter_asserts (env : Env) (ctx : Context) (n : Nat)
    (dl : List Nat) (lengths : Option (List Nat))
    (binaries : Option (List (Option Blob))) (bs ae : Bool) (i : Nat)
    (hn : n ≠ 0)
    (h1 : (!ae && lengths.isNone) = false)
    (h2 : (!ae && !lengthsOk (lengths.getD []) (binaries.getD []) n) = false)
    (h3 : hasDuplicate ctx.devices (dl.take n) = false)
    (h4 : allInContext ctx.devices (resolveDevices env (dl.take n)) = true)
    (h5 : (ae && lengths.isNone && binaries.isNone) = false)
    (hi : i < (resolveDevices env (dl.take n)).length)
    (hreach : ∀ j, j < i →
      branchOk env (resolveDevices env (dl.take n)) (lenAtOf lengths)
        (binAtOf binaries) j = true)
    (hcls : classify env ((resolveDevices env (dl.take n)).getD i 0)
        (binAtOf binaries i) (lenAtOf lengths i) = .portable)
    (hcl : env.spirv_is_opencl (binAtOf binaries i) = true)
    (hext : env.hasSpirExt ((resolveDevices env (dl.take n)).getD i 0) = true)
    (hen : env.enableSpirv = true)
    (hexit : ¬env.run_exit (binAtOf binaries i) = 0) :
    (create_program_skeleton env (some ctx) n (some dl) lengths binaries bs
        ae).outcome = .assertFail := by
  obtain ⟨st2, heq, hpres, hstat⟩ :=
    skeleton_reach env ctx n dl lengths binaries bs ae i hn h1 h2 h3 h4 h5
      hi hreach
  obtain ⟨hbc, hsp⟩ := classify_portable hcls
  simp only [List.getD_eq_getElem?_getD] at hext
  have hstep : step (callCC env n dl lengths binaries bs) i st2 =
      .inr { outcome := .assertFail, heap := st2.heap, status := st2.status,
             trace := st2.trace ++ [Event.writeSpirvTemp i,
               Event.runConverter i],
             context_retains := 0 } := by
    simp only [step, callCC_env, callCC_udl, callCC_lenAt, callCC_binAt]
    rw [if_neg (by simp [hbc]), if_pos hsp, if_neg (by simp [hcl]),
        if_neg (by simp [hext]), if_neg (by simp [hen]), if_neg hexit]
  rw [heq]
  simp [loop, hstep]

/-- C7: a blob matching none of the three format checks fails the whole call
with `CL_INVALID_BINARY`, and when the caller supplied a status array, that
device's slot is set to `CL_INVALID_BINARY` before the call returns. -/
theorem C7_unknown_binary (env : Env) (ctx : Context) (n : Nat)
    (dl : List Nat) (lengths : Option (List Nat))
    (binaries : Option (List (Option Blob))) (bs ae : Bool) (i : Nat)
    (hn : n ≠ 0)
    (h1 : (!ae && lengths.isNone) = false)
    (h2 : (!ae && !lengthsOk (lengths.getD []) (binaries.getD []) n) = false)
    (h3 : hasDuplicate ctx.devices (dl.take n) = false)
    (h4 : allInContext ctx.devices (resolveDevices env (dl.take n)) = true)
    (h5 : (ae && lengths.isNone && binaries.isNone) = false)
    (hi : i < (resolveDevices env (dl.take n)).length)
    (hreach : ∀ j, j < i →
      branchOk env (resolveDevices env (dl.take n)) (lenAtOf lengths)
        (binAtOf binaries) j = true)
    (hcls : classify env ((resolveDevices env (dl.take n)).getD i 0)
        (binAtOf binaries i) (lenAtOf lengths i) = .unrecognized) :
    (create_program_skeleton env (some ctx) n (some dl) lengths binaries bs
        ae).outcome = .err CL_INVALID_BINARY ∧
    (bs = true →
      (create_program_skeleton env (some ctx) n (some dl) lengths binaries bs
          ae).status[i]? = some (some CL_INVALID_BINARY)) := by
  obtain ⟨st2, heq, hpres, hstat⟩ :=
    skeleton_reach env ctx n dl lengths binaries bs ae i hn h1 h2 h3 h4 h5
      hi hreach
  obtain ⟨hbc, hsp, hchk⟩ := classify_unrecognized hcls
  simp only [List.getD_eq_getElem?_getD] at hchk
  have hstep : step (callCC env n dl lengths binaries bs) i st2 =
      .inr (exitCLEAN CL_INVALID_BINARY 0
        (setStatus (callCC env n dl lengths binaries bs) st2 i
          CL_INVALID_BINARY)) := by
    simp only [step, callCC_env, callCC_udl, callCC_lenAt, callCC_binAt,
      callCC_devlistAlloc]
    rw [if_neg (by simp [hbc]), if_neg (by simp [hsp]),
        if_neg (by simp [hchk])]
  have hi_n : i < n := Nat.lt_of_lt_of_le hi (resolved_le env dl n)
  have hlen2 : st2.status.length = n := by
    rw [hpres.2]; simp
  rw [heq]
  have hloop : loop (callCC env n dl lengths binaries bs)
      (i :: List.range' (i + 1)
        ((resolveDevices env (dl.take n)).length - i - 1)) st2 =
      exitCLEAN CL_INVALID_BINARY 0
        (setStatus (callCC env n dl lengths binaries bs) st2 i
          CL_INVALID_BINARY) := by
    simp [loop, hstep]
  rw [hloop]
  constructor
  · simp [exitCLEAN, exitERROR]
  · intro hbs
    have hb2 : (callCC env n dl lengths binaries bs).bstat = true := by
      rw [callCC_bstat]; exact hbs
    simp only [exitCLEAN, exitERROR]
    rw [setStatus_status_eq _ _ _ _ hb2 (by omega)]

end PoclBinary

namespace PoclBinary

/-- C6: the classifier tries the checks in the fixed priority order
native-IR ("BC" prefix), then portable (SPIR-V), then packed.  A blob whose
first two bytes are "BC" is always classified native IR — its copy goes
into the per-device binary slot and the packed-binary slot is untouched —
even for environments in which the packed-binary structural check would
also accept it; the portable and packed classifications each certify that
every earlier check failed. -/
theorem C6_bc_priority :
    (∀ (env : Env) (dev : Nat) (blob : Blob) (len : Nat),
      startsWithBC blob = true → classify env dev blob len = .nativeIR) ∧
    (∀ (env : Env) (dev : Nat) (blob : Blob) (len : Nat),
      classify env dev blob len = .portable →
        startsWithBC blob = false ∧
        (env.ocsAvailable && env.is_spirv blob len) = true) ∧
    (∀ (env : Env) (dev : Nat) (blob : Blob) (len : Nat),
      classify env dev blob len = .packed →
        startsWithBC blob = false ∧
        (env.ocsAvailable && env.is_spirv blob len) = false ∧
        env.check_binary dev blob = true) ∧
    (∀ (cc : CallCtx) (i : Nat) (st : LoopSt),
      startsWithBC (cc.binAt i) = true →
      (stepInl (step cc i st)).map (fun s => s.prog.pocl_binaries) =
        some st.prog.pocl_binaries ∧
      (stepInl (step cc i st)).map (fun s => s.prog.binaries) =
        some (st.prog.binaries.set i
          (some (st.heap.next, (cc.binAt i).take (cc.lenAt i)))) ∧
      (stepInl (step cc i st)).map (fun s => s.prog.binary_sizes) =
        some (st.prog.binary_sizes.set i (cc.lenAt i))) := by
  refine ⟨?_, ?_, ?_, ?_⟩
  · intro env dev blob len h
    simp [classify, h]
  · intro env dev blob len h
    exact classify_portable h
  · intro env dev blob len h
    exact classify_packed h
  · intro cc i st h
    simp only [step]
    rw [if_pos h]
    refine ⟨?_, ?_, ?_⟩ <;> simp [stepInl, setStatus_prog, Heap.alloc]

/-- Fixtures for the C6 witness: a call context whose blob starts with "BC"
while the packed check also accepts everything, and a start state. -/
def ccW6 : CallCtx :=
  { env := envBase
    udl := [7]
    lenAt := fun _ => 2
    binAt := fun _ => [66, 67]
    bstat := true
    devlistAlloc := 0 }

def stW6 : LoopSt := ⟨initProg envBase [7], initHeap, [none], []⟩

/-- Witness for C6: all four conjuncts at concrete inputs (note
`envBase.check_binary` accepts every blob, so the "BC" blob here would also
pass the packed check). -/
theorem C6_bc_priority_witness :
    classify envBase 7 [66, 67] 2 = .nativeIR ∧
    (startsWithBC [9, 9] = false ∧
      (envSpv.ocsAvailable && envSpv.is_spirv [9, 9] 2) = true) ∧
    (startsWithBC [9, 9] = false ∧
      (envBase.ocsAvailable && envBase.is_spirv [9, 9] 2) = false ∧
      envBase.check_binary 7 [9, 9] = true) ∧
    ((stepInl (step ccW6 0 stW6)).map (fun s => s.prog.pocl_binaries) =
      some stW6.prog.pocl_binaries ∧
    (stepInl (step ccW6 0 stW6)).map (fun s => s.prog.binaries) =
      some (stW6.prog.binaries.set 0
        (some (stW6.heap.next, (ccW6.binAt 0).take (ccW6.lenAt 0)))) ∧
    (stepInl (step ccW6 0 stW6)).map (fun s => s.prog.binary_sizes) =
      some (stW6.prog.binary_sizes.set 0 (ccW6.lenAt 0))) :=
  ⟨C6_bc_priority.1 envBase 7 [66, 67] 2 (by decide),
   C6_bc_priority.2.1 envSpv 7 [9, 9] 2 (by decide),
   C6_bc_priority.2.2.1 envBase 7 [9, 9] 2 (by decide),
   C6_bc_priority.2.2.2 ccW6 0 stW6 (by decide)⟩

/-- C8: on the packed-binary path the events happen in the order: copy the
blob and its length into the packed slot, derive the build hash, create the
cache directory, deserialize; a cached IR artifact is loaded afterwards
exactly when it exists (its absence still lets the iteration succeed), and
a deserialization failure fails the whole call with `CL_INVALID_BINARY`. -/
theorem C8_packed_path :
    (∀ (cc : CallCtx) (i : Nat) (st : LoopSt),
      classify cc.env (cc.udl.getD i 0) (cc.binAt i) (cc.lenAt i) = .packed →
      cc.env.cachedir_fails (cc.udl.getD i 0)
        ((cc.binAt i).take (cc.lenAt i)) = false →
      cc.env.deserialize_fails (cc.udl.getD i 0)
        ((cc.binAt i).take (cc.lenAt i)) = false →
      cc.env.bc_exists (cc.udl.getD i 0)
        ((cc.binAt i).take (cc.lenAt i)) = true →
      (stepInl (step cc i st)).map (fun s => s.trace) =
        some (st.trace ++ [Event.copyPoclBinary i, Event.setBuildHash i,
          Event.createCachedir i, Event.deserializePocl i,
          Event.loadCachedBC i]) ∧
      (stepInl (step cc i st)).map (fun s => s.prog.pocl_binaries) =
        some (st.prog.pocl_binaries.set i
          (some (st.heap.next, (cc.binAt i).take (cc.lenAt i)))) ∧
      (stepInl (step cc i st)).map (fun s => s.prog.pocl_binary_sizes) =
        some (st.prog.pocl_binary_sizes.set i (cc.lenAt i)) ∧
      (stepInl (step cc i st)).map (fun s => s.prog.build_hash) =
        some (st.prog.build_hash.set i (cc.env.buildhash (cc.udl.getD i 0)
          ((cc.binAt i).take (cc.lenAt i)))) ∧
      (stepInl (step cc i st)).map (fun s => s.prog.binaries) =
        some (st.prog.binaries.set i (some (st.heap.next + 1,
          cc.env.cached_bc (cc.udl.getD i 0)
            ((cc.binAt i).take (cc.lenAt i)))))) ∧
    (∀ (cc : CallCtx) (i : Nat) (st : LoopSt),
      classify cc.env (cc.udl.getD i 0) (cc.binAt i) (cc.lenAt i) = .packed →
      cc.env.cachedir_fails (cc.udl.getD i 0)
        ((cc.binAt i).take (cc.lenAt i)) = false →
      cc.env.deserialize_fails (cc.udl.getD i 0)
        ((cc.binAt i).take (cc.lenAt i)) = false →
      cc.env.bc_exists (cc.udl.getD i 0)
        ((cc.binAt i).take (cc.lenAt i)) = false →
      (stepInl (step cc i st)).map (fun s => s.trace) =
        some (st.trace ++ [Event.copyPoclBinary i, Event.setBuildHash i,
          Event.createCachedir i, Event.deserializePocl i]) ∧
      (stepInl (step cc i st)).map (fun s => s.prog.pocl_binaries) =
        some (st.prog.pocl_binaries.set i
          (some (st.heap.next, (cc.binAt i).take (cc.lenAt i)))) ∧
      (stepInl (step cc i st)).map (fun s => s.prog.pocl_binary_sizes) =
        some (st.prog.pocl_binary_sizes.set i (cc.lenAt i)) ∧
      (stepInl (step cc i st)).map (fun s => s.prog.build_hash) =
        some (st.prog.build_hash.set i (cc.env.buildhash (cc.udl.getD i 0)
          ((cc.binAt i).take (cc.lenAt i)))) ∧
      (stepInl (step cc i st)).map (fun s => s.prog.binaries) =
        some st.prog.binaries) ∧
    (∀ (env : Env) (ctx : Context) (n : Nat) (dl : List Nat)
        (lengths : Option (List Nat))
        (binaries : Option (List (Option Blob))) (bs ae : Bool) (i : Nat),
      n ≠ 0 →
      (!ae && lengths.isNone) = false →
      (!ae && !lengthsOk (lengths.getD []) (binaries.getD []) n) = false →
      hasDuplicate ctx.devices (dl.take n) = false →
      allInContext ctx.devices (resolveDevices env (dl.take n)) = true →
      (ae && lengths.isNone && binaries.isNone) = false →
      i < (resolveDevices env (dl.take n)).length →
      (∀ j, j < i →
        branchOk env (resolveDevices env (dl.take n)) (lenAtOf lengths)
          (binAtOf binaries) j = true) →
      classify env ((resolveDevices env (dl.take n)).getD i 0)
        (binAtOf binaries i) (lenAtOf lengths i) = .packed →
      env.cachedir_fails ((resolveDevices env (dl.take n)).getD i 0)
        ((binAtOf binaries i).take (lenAtOf lengths i)) = false →
      env.deserialize_fails ((resolveDevices env (dl.take n)).getD i 0)
        ((binAtOf binaries i).take (lenAtOf lengths i)) = true →
      (create_program_skeleton env (some ctx) n (some dl) lengths binaries bs
          ae).outcome = .err CL_INVALID_BINARY) := by
  refine ⟨?_, ?_, ?_⟩
  · intro cc i st hcls hcf hdf hbc2
    obtain ⟨hbc, hsp, hchk⟩ := classify_packed hcls
    simp only [List.getD_eq_getElem?_getD] at hcf hdf
    simp only [step]
    rw [if_neg (by simp [hbc]), if_neg (by simp [hsp]), if_pos hchk,
        if_neg (by simp [hcf]), if_neg (by simp [hdf])]
    rw [if_pos hbc2]
    refine ⟨?_, ?_, ?_, ?_, ?_⟩ <;>
      simp [stepInl, setStatus_prog, setStatus_trace, Heap.alloc,
        List.getD_eq_getElem?_getD]
  · intro cc i st hcls hcf hdf hbc2
    obtain ⟨hbc, hsp, hchk⟩ := classify_packed hcls
    simp only [List.getD_eq_getElem?_getD] at hcf hdf
    simp only [step]
    rw [if_neg (by simp [hbc]), if_neg (by simp [hsp]), if_pos hchk,
        if_neg (by simp [hcf]), if_neg (by simp [hdf])]
    have hbc2a := hbc2
    simp only [List.getD_eq_getElem?_getD] at hbc2a
    rw [if_neg (by simp [hbc2a])]
    refine ⟨?_, ?_, ?_, ?_, ?_⟩ <;>
      simp [stepInl, setStatus_prog, setStatus_trace, Heap.alloc,
        List.getD_eq_getElem?_getD]
  · intro env ctx n dl lengths binaries bs ae i hn h1 h2 h3 h4 h5 hi hreach
      hcls hcf hdf
    obtain ⟨st2, heq, hpres, hstat⟩ :=
      skeleton_reach env ctx n dl lengths binaries bs ae i hn h1 h2 h3 h4 h5
        hi hreach
    obtain ⟨hbc, hsp, hchk⟩ := classify_packed hcls
    simp only [List.getD_eq_getElem?_getD] at hcf hdf
    have hstep : step (callCC env n dl lengths binaries bs) i st2 =
        .inr (exitERROR CL_INVALID_BINARY (some 0)
          (st2.heap.alloc.2) st2.status
          (st2.trace ++ [Event.copyPoclBinary i, Event.setBuildHash i,
            Event.createCachedir i] ++ [Event.deserializePocl i])) := by
      simp only [step, callCC_env, callCC_udl, callCC_lenAt, callCC_binAt,
        callCC_devlistAlloc, List.getD_eq_getElem?_getD]
      have hchk2 := hchk
      simp only [List.getD_eq_getElem?_getD] at hchk2
      rw [if_neg (by simp [hbc]), if_neg (by simp [hsp]), if_pos hchk2,
          if_neg (by simp [hcf]), if_pos hdf]
    rw [heq]
    simp [loop, hstep, exitERROR]

end PoclBinary

namespace PoclBinary

/-- Like `envBase` but no blob passes the packed check, so the C3 witness's
second device is unrecognized and fails the call after the first device
already completed the native-IR branch. -/
def envC3w : Env := { envBase with check_binary := fun _ _ => false }

/-- Witness for C3 at a concrete mixed call: device 0 completes the
native-IR branch, device 1 is unrecognized so the call itself fails with
invalid-binary — yet slot 0 holds success. -/
theorem C3_status_success_witness :
    (create_program_skeleton envC3w (some ⟨[7, 8]⟩) 2 (some [7, 8])
        (some [2, 3]) (some [some [66, 67], some [1, 2, 3]]) true
        false).status[0]? = some (some CL_SUCCESS) :=
  C3_status_success envC3w ⟨[7, 8]⟩ 2 [7, 8] (some [2, 3])
    (some [some [66, 67], some [1, 2, 3]]) false 0 (by decide) (by decide)
    (by decide) (by decide) (by decide) (by decide) (by decide) (by decide)
    (by decide) (by decide)

/-- Witness for C4 at a concrete call: the converter exits 1 on an
OpenCL-mode SPIR-V blob. -/
theorem C4_converter_asserts_witness :
    (create_program_skeleton envC4 (some ⟨[8]⟩) 1 (some [8]) (some [3])
        (some [some [9, 9, 9]]) false false).outcome = .assertFail :=
  C4_converter_asserts envC4 ⟨[8]⟩ 1 [8] (some [3]) (some [some [9, 9, 9]])
    false false 0 (by decide) (by decide) (by decide) (by decide) (by decide)
    (by decide) (by decide) (by decide) (by decide) (by decide) (by decide)
    (by decide) (by decide)

/-- Like `envBase` but no blob passes the packed-binary check, so a
non-"BC", non-SPIR-V blob is unrecognized. -/
def envC7 : Env := { envBase with check_binary := fun _ _ => false }

/-- Witness for C7 at a concrete call: one device, unrecognized blob,
caller-supplied status array. -/
theorem C7_unknown_binary_witness :
    (create_program_skeleton envC7 (some ⟨[7]⟩) 1 (some [7]) (some [3])
        (some [some [1, 2, 3]]) true false).outcome =
      .err CL_INVALID_BINARY ∧
    (true = true →
      (create_program_skeleton envC7 (some ⟨[7]⟩) 1 (some [7]) (some [3])
          (some [some [1, 2, 3]]) true false).status[0]? =
        some (some CL_INVALID_BINARY)) :=
  C7_unknown_binary envC7 ⟨[7]⟩ 1 [7] (some [3]) (some [some [1, 2, 3]])
    true false 0 (by decide) (by decide) (by decide) (by decide) (by decide)
    (by decide) (by decide) (by decide) (by decide)

/-- Like `envBase` but a cached `program.bc` exists for every packed
binary. -/
def envP8 : Env :=
  { envBase with
    bc_exists := fun _ _ => true
    cached_bc := fun _ _ => [66, 67, 1] }

/-- Fixtures for the C8 witness: packed-binary call contexts with and
without a cached IR artifact, and a start state. -/
def ccW8 : CallCtx :=
  { env := envP8
    udl := [7]
    lenAt := fun _ => 4
    binAt := fun _ => [1, 2, 3, 4]
    bstat := true
    devlistAlloc := 0 }

def ccW8b : CallCtx :=
  { env := envBase
    udl := [7]
    lenAt := fun _ => 4
    binAt := fun _ => [1, 2, 3, 4]
    bstat := true
    devlistAlloc := 0 }

def stW8 : LoopSt := ⟨initProg envP8 [7], initHeap, [none], []⟩

/-- Witness for C8: all three conjuncts at concrete inputs (cached artifact
present, cached artifact absent, and a whole call whose deserialization
fails). -/
theorem C8_packed_path_witness :
    ((stepInl (step ccW8 0 stW8)).map (fun s => s.trace) =
      some (stW8.trace ++ [Event.copyPoclBinary 0, Event.setBuildHash 0,
        Event.createCachedir 0, Event.deserializePocl 0,
        Event.loadCachedBC 0]) ∧
     (stepInl (step ccW8 0 stW8)).map (fun s => s.prog.pocl_binaries) =
      some (stW8.prog.pocl_binaries.set 0
        (some (stW8.heap.next, (ccW8.binAt 0).take (ccW8.lenAt 0)))) ∧
     (stepInl (step ccW8 0 stW8)).map (fun s => s.prog.pocl_binary_sizes) =
      some (stW8.prog.pocl_binary_sizes.set 0 (ccW8.lenAt 0)) ∧
     (stepInl (step ccW8 0 stW8)).map (fun s => s.prog.build_hash) =
      some (stW8.prog.build_hash.set 0 (ccW8.env.buildhash (ccW8.udl.getD 0 0)
        ((ccW8.binAt 0).take (ccW8.lenAt 0)))) ∧
     (stepInl (step ccW8 0 stW8)).map (fun s => s.prog.binaries) =
      some (stW8.prog.binaries.set 0 (some (stW8.heap.next + 1,
        ccW8.env.cached_bc (ccW8.udl.getD 0 0)
          ((ccW8.binAt 0).take (ccW8.lenAt 0)))))) ∧
    ((stepInl (step ccW8b 0 stW8)).map (fun s => s.trace) =
      some (stW8.trace ++ [Event.copyPoclBinary 0, Event.setBuildHash 0,
        Event.createCachedir 0, Event.deserializePocl 0]) ∧
     (stepInl (step ccW8b 0 stW8)).map (fun s => s.prog.pocl_binaries) =
      some (stW8.prog.pocl_binaries.set 0
        (some (stW8.heap.next, (ccW8b.binAt 0).take (ccW8b.lenAt 0)))) ∧
     (stepInl (step ccW8b 0 stW8)).map (fun s => s.prog.pocl_binary_sizes) =
      some (stW8.prog.pocl_binary_sizes.set 0 (ccW8b.lenAt 0)) ∧
     (stepInl (step ccW8b 0 stW8)).map (fun s => s.prog.build_hash) =
      some (stW8.prog.build_hash.set 0
        (ccW8b.env.buildhash (ccW8b.udl.getD 0 0)
          ((ccW8b.binAt 0).take (ccW8b.lenAt 0)))) ∧
     (stepInl (step ccW8b 0 stW8)).map (fun s => s.prog.binaries) =
      some stW8.prog.binaries) ∧
    (create_program_skeleton envC1 (some ⟨[9]⟩) 1 (some [9]) (some [4])
        (some [some [1, 2, 3, 4]]) false false).outcome =
      .err CL_INVALID_BINARY :=
  ⟨C8_packed_path.1 ccW8 0 stW8 (by decide) (by decide) (by decide)
      (by decide),
   C8_packed_path.2.1 ccW8b 0 stW8 (by decide) (by decide) (by decide)
      (by decide),
   C8_packed_path.2.2 envC1 ⟨[9]⟩ 1 [9] (some [4]) (some [some [1, 2, 3, 4]])
      false false 0 (by decide) (by decide) (by decide) (by decide)
      (by decide) (by decide) (by decide) (by decide) (by decide) (by decide)
      (by decide)⟩

end PoclBinary
